import Mathlib

/-!
Verification of the idn-au scores-calculator scoring engine.

The RDF data model is embedded shallowly: a graph is a list of triples
understood with set semantics (all queries deduplicate triples first,
mirroring the rdflib set-based store).  Network access is modelled by a
fetch capability passed explicitly, as the specification prescribes.
-/

set_option maxRecDepth 16384

/-- An RDF node: URI reference, blank node, plain or typed literal, or an
integer literal (modelling a Python int Literal, whose datatype is
xsd:integer). -/
inductive Node where
  | uri : String → Node
  | bnode : String → Node
  | lit : String → Option String → Node
  | natLit : Nat → Node
deriving DecidableEq, Repr

/-- An RDF triple. -/
structure Triple where
  s : Node
  p : Node
  o : Node
deriving DecidableEq, Repr

/-- A graph is a list of triples with set semantics: queries deduplicate. -/
abbrev RdfGraph := List Triple

/-- Outcome of one HTTP fetch: 2xx-success, a non-success response, or a
raised transport error (httpx.HTTPError). -/
inductive FetchOutcome where
  | success : FetchOutcome
  | failure : FetchOutcome
  | error : FetchOutcome
deriving DecidableEq, Repr

/-- The network capability: fetch(uri) -> outcome. -/
abbrev Fetcher := String → FetchOutcome

def rdfType : Node := Node.uri "http://www.w3.org/1999/02/22-rdf-syntax-ns#type"

def dcatDataset : Node := Node.uri "http://www.w3.org/ns/dcat#Dataset"

def dcatResource : Node := Node.uri "http://www.w3.org/ns/dcat#Resource"

def dcatTheme : Node := Node.uri "http://www.w3.org/ns/dcat#theme"

def dcatDistribution : Node := Node.uri "http://www.w3.org/ns/dcat#distribution"

def dcatMediaType : Node := Node.uri "http://www.w3.org/ns/dcat#mediaType"

def dcatHadRole : Node := Node.uri "http://www.w3.org/ns/dcat#hadRole"

def dctCreated : Node := Node.uri "http://purl.org/dc/terms/created"

def dctModified : Node := Node.uri "http://purl.org/dc/terms/modified"

def dctType : Node := Node.uri "http://purl.org/dc/terms/type"

def dctIsPartOf : Node := Node.uri "http://purl.org/dc/terms/isPartOf"

def dctHasPart : Node := Node.uri "http://purl.org/dc/terms/hasPart"

def dctLicense : Node := Node.uri "http://purl.org/dc/terms/license"

def dctSource : Node := Node.uri "http://purl.org/dc/terms/source"

def dctFormat : Node := Node.uri "http://purl.org/dc/terms/format"

def dctPublisher : Node := Node.uri "http://purl.org/dc/terms/publisher"

def dctCreator : Node := Node.uri "http://purl.org/dc/terms/creator"

def dctContributor : Node := Node.uri "http://purl.org/dc/terms/contributor"

def dctAccessRights : Node := Node.uri "http://purl.org/dc/terms/accessRights"

def dctRights : Node := Node.uri "http://purl.org/dc/terms/rights"

def dctDescription : Node := Node.uri "http://purl.org/dc/terms/description"

def provQualifiedAttribution : Node := Node.uri "http://www.w3.org/ns/prov#qualifiedAttribution"

def provEntity : Node := Node.uri "http://www.w3.org/ns/prov#entity"

def provAgent : Node := Node.uri "http://www.w3.org/ns/prov#agent"

def provHadRole : Node := Node.uri "http://www.w3.org/ns/prov#hadRole"

def rdfsLabel : Node := Node.uri "http://www.w3.org/2000/01/rdf-schema#label"

def rdfsMember : Node := Node.uri "http://www.w3.org/2000/01/rdf-schema#member"

def xsdAnyURIStr : String := "http://www.w3.org/2001/XMLSchema#anyURI"

def qbObservationType : Node := Node.uri "http://purl.org/linked-data/cube#Observation"

def qbObservationProp : Node := Node.uri "http://purl.org/linked-data/cube#observation"

def qbObservationGroup : Node := Node.uri "http://purl.org/linked-data/cube#ObservationGroup"

def scoresHasScore : Node := Node.uri "https://linked.data.gov.au/def/scores/hasScore"

def scoresRefResource : Node := Node.uri "https://linked.data.gov.au/def/scores/refResource"

def scoresFairScore : Node := Node.uri "https://linked.data.gov.au/def/scores/FairScore"

def scoresCareScore : Node := Node.uri "https://linked.data.gov.au/def/scores/CareScore"

def scoresFairScoreNormalised : Node := Node.uri "https://linked.data.gov.au/def/scores/FairScoreNormalised"

def scoresCareScoreNormalised : Node := Node.uri "https://linked.data.gov.au/def/scores/CareScoreNormalised"

def scoresFairFScore : Node := Node.uri "https://linked.data.gov.au/def/scores/fairFScore"

def scoresFairAScore : Node := Node.uri "https://linked.data.gov.au/def/scores/fairAScore"

def scoresFairIScore : Node := Node.uri "https://linked.data.gov.au/def/scores/fairIScore"

def scoresFairRScore : Node := Node.uri "https://linked.data.gov.au/def/scores/fairRScore"

def scoresCareCScore : Node := Node.uri "https://linked.data.gov.au/def/scores/careCScore"

def scoresCareAScore : Node := Node.uri "https://linked.data.gov.au/def/scores/careAScore"

def scoresCareRScore : Node := Node.uri "https://linked.data.gov.au/def/scores/careRScore"

def scoresCareEScore : Node := Node.uri "https://linked.data.gov.au/def/scores/careEScore"

def scoresFairFScoreNormalised : Node := Node.uri "https://linked.data.gov.au/def/scores/fairFScoreNormalised"

def scoresFairAScoreNormalised : Node := Node.uri "https://linked.data.gov.au/def/scores/fairAScoreNormalised"

def scoresFairIScoreNormalised : Node := Node.uri "https://linked.data.gov.au/def/scores/fairIScoreNormalised"

def scoresFairRScoreNormalised : Node := Node.uri "https://linked.data.gov.au/def/scores/fairRScoreNormalised"

def scoresCareCScoreNormalised : Node := Node.uri "https://linked.data.gov.au/def/scores/careCScoreNormalised"

def scoresCareAScoreNormalised : Node := Node.uri "https://linked.data.gov.au/def/scores/careAScoreNormalised"

def scoresCareRScoreNormalised : Node := Node.uri "https://linked.data.gov.au/def/scores/careRScoreNormalised"

def scoresCareEScoreNormalised : Node := Node.uri "https://linked.data.gov.au/def/scores/careEScoreNormalised"

def darProtected : Node := Node.uri "https://linked.data.gov.au/def/data-access-rights/protected"

def darRestricted : Node := Node.uri "https://linked.data.gov.au/def/data-access-rights/restricted"

def darMetadataOnly : Node := Node.uri "https://linked.data.gov.au/def/data-access-rights/metadata-only"

def darConditional : Node := Node.uri "https://linked.data.gov.au/def/data-access-rights/conditional"

def darEmbargoed : Node := Node.uri "https://linked.data.gov.au/def/data-access-rights/embargoed"

def darOpen : Node := Node.uri "https://linked.data.gov.au/def/data-access-rights/open"

def inAttributionIncomplete : Node := Node.uri "http://data.idnau.org/pid/vocab/lc-in/attribution-incomplete"

def inOpenToCollaborate : Node := Node.uri "http://data.idnau.org/pid/vocab/lc-in/open-to-collaborate"

def orgIndigOwnedBy : Node := Node.uri "https://data.idnau.org/pid/vocab/org-indigeneity/owned-by-indigenous-persons"

def orgIndigOrganisation : Node := Node.uri "https://data.idnau.org/pid/vocab/org-indigeneity/indigenous-persons-organisation"

def orgIndigRunBy : Node := Node.uri "https://data.idnau.org/pid/vocab/org-indigeneity/run-by-indigenous-persons"

def indIndigByIndigenousPeople : Node := Node.uri "https://data.idnau.org/pid/vocab/indigeneity/by-indigenous-people"

/-- Set view of a graph: the rdflib store holds a triple at most once. -/
def tset (g : RdfGraph) : RdfGraph := g.dedup

/-- rdflib Graph.objects(s, p): one object per stored matching triple. -/
def objectsOf (g : RdfGraph) (s p : Node) : List Node :=
  ((tset g).filter (fun t => decide (t.s = s ∧ t.p = p))).map (fun t => t.o)

/-- rdflib Graph.predicates(s, None): one predicate per stored matching triple. -/
def predicatesOf (g : RdfGraph) (s : Node) : List Node :=
  ((tset g).filter (fun t => decide (t.s = s))).map (fun t => t.p)

/-- All predicates of the graph, one per stored triple. -/
def allPredicates (g : RdfGraph) : List Node :=
  (tset g).map (fun t => t.p)

/-- rdflib Graph.value(s, p): the first object of a matching triple, if any. -/
def valueOf (g : RdfGraph) (s p : Node) : Option Node :=
  (objectsOf g s p).head?

/-- rdflib any(g.triples((s, None, o))): some triple with that subject and object. -/
def hasTripleSO (g : RdfGraph) (s o : Node) : Bool :=
  (tset g).any (fun t => decide (t.s = s ∧ t.o = o))

/-- Python str() of an RDF term: URI text, blank-node id, or lexical form. -/
def nodeStr : Node → String
  | Node.uri u => u
  | Node.bnode b => b
  | Node.lit l _ => l
  | Node.natLit n => toString n

/-- Python bool-to-int coercion used by += any(...). -/
def b2n (b : Bool) : Nat := if b then 1 else 0

def leadsChars : List Char → List Char → Bool
  | [], _ => true
  | _ :: _, [] => false
  | a :: as, b :: bs => a == b && leadsChars as bs

def subChars (n : List Char) : List Char → Bool
  | [] => leadsChars n []
  | c :: cs => leadsChars n (c :: cs) || subChars n cs

/-- Python substring containment: needle in hay. -/
def strHas (hay needle : String) : Bool :=
  subChars needle.toList hay.toList

def lowerChar (c : Char) : Char :=
  if 'A' ≤ c ∧ c ≤ 'Z' then Char.ofNat (c.toNat + 32) else c

/-- Python str.lower(), restricted to ASCII as used by the fixtures. -/
def lowerStr (s : String) : String :=
  String.mk (s.toList.map lowerChar)

/-- A URI in the PROV ontology namespace, modelling rdflib p in PROV. -/
def isProvPredicate : Node → Bool
  | Node.uri u => leadsChars "http://www.w3.org/ns/prov#".toList u.toList
  | _ => false

def isUriNode : Node → Bool
  | Node.uri _ => true
  | _ => false

/-- Python type(o) == Literal: plain, typed and integer literals. -/
def isLitNode : Node → Bool
  | Node.lit _ _ => true
  | Node.natLit _ => true
  | _ => false

/-! ## reference_data/reference.py -/

def properties_for_mediatypes_formats : List Node := [dctFormat, dcatMediaType]

def machine_readable_extensions : List String :=
  ["json", "xml", "csv", "tsv", "yaml", "yml", "rdf", "ttl", "jsonld", "geojson",
   "gml", "kml", "xlsx", "xls", "ods"]

def machine_readable_mime_types : List String :=
  ["application/json", "application/xml", "text/csv", "text/tab-separated-values",
   "application/x-yaml", "application/x-yaml", "application/rdf+xml", "text/turtle",
   "application/ld+json", "application/geo+json", "application/gml+xml",
   "application/vnd.google-earth.kml+xml",
   "application/vnd.openxmlformats-officedocument.spreadsheetml.sheet",
   "application/vnd.ms-excel", "application/vnd.oasis.opendocument.spreadsheet"]

def properties_expected_to_have_objects_with_uris : List Node :=
  [dctFormat, dctType, dctLicense, dctPublisher, dctCreator, dctContributor,
   dctAccessRights, provAgent, provHadRole, dcatHadRole, dcatTheme, rdfsMember]

def data_usage_license_properties : List Node := [dctLicense]

def additional_provenance_properties : List Node := [dctSource]

/-! ## calculators/functions.py -/

/-- rdflib triples_choices((s, ps, None)): the objects for each property in turn. -/
def objectsForProps (g : RdfGraph) (s : Node) (ps : List Node) : List Node :=
  ps.flatMap (fun p => objectsOf g s p)

/-- The loop of machine_readability_score: return 2 on a mime-type match, keep
scanning with 1 recorded after a file-extension match. -/
def machineLoop : Nat → List String → Nat
  | v, [] => v
  | v, l :: ls =>
      if l ∈ machine_readable_mime_types then 2
      else if l ∈ machine_readable_extensions then machineLoop 1 ls
      else machineLoop v ls

def machine_readability_score (g : RdfGraph) (r : Node) : Nat :=
  machineLoop 0 ((objectsForProps g r properties_for_mediatypes_formats).map nodeStr)

def shared_vocabs_ontologies (g : RdfGraph) (r : Node) : Nat :=
  let objs := objectsForProps g r properties_expected_to_have_objects_with_uris
  if 0 < objs.length then
    let uris_count := (objs.filter isUriNode).length
    let literals_count := (objs.filter isLitNode).length
    if uris_count = 0 then 0
    else if literals_count = 0 then 2
    else if literals_count < uris_count then 1
    else 0
  else 0

def licensing_score (g : RdfGraph) (r : Node) : Nat :=
  if 0 < (objectsForProps g r data_usage_license_properties).length then 2 else 0

def provenance_score (g : RdfGraph) : Nat :=
  if (allPredicates g).any isProvPredicate then 2
  else if (allPredicates g).any (fun p => decide (p ∈ additional_provenance_properties)) then 2
  else 0

def data_source_score (g : RdfGraph) (r : Node) : Nat :=
  match valueOf g r dctSource with
  | none => 0
  | some (Node.uri _) => 2
  | some (Node.lit _ d) => if d = some xsdAnyURIStr then 1 else 0
  | some (Node.natLit _) => 0
  | some (Node.bnode _) => 0

/-- searchable_score from functions.py.  The constant searchable_properties is
imported from reference_data/reference.py but is absent from that file in this
source tree, so it is passed here as an explicit parameter sp; every theorem
below holds for an arbitrary choice of that property list. -/
def searchable_score (sp : List Node) (g : RdfGraph) : Nat :=
  if (allPredicates g).any (fun p => decide (p ∈ sp)) then 1 else 0

/-! ## calculators/parser.py: observation emission and forward chaining -/

/-- _create_observation: mint one Observation node (blank id obsId) carrying the
measure property and value, linked from the score container. -/
def _create_observation (score_container : Node) (obsId : String)
    (score_property : Node) (score_value : Node) : RdfGraph :=
  [Triple.mk (Node.bnode obsId) rdfType qbObservationType,
   Triple.mk score_container qbObservationProp (Node.bnode obsId),
   Triple.mk (Node.bnode obsId) score_property score_value]

/-- _create_observation_group without the optional time interval (no caller in
the scoring paths passes one): the Score container node and its graph. -/
def _create_observation_group (resource : Node) (score_cls : Node) (ogId : String) :
    Node × RdfGraph :=
  (Node.bnode ogId,
   [Triple.mk resource rdfType dcatResource,
    Triple.mk resource scoresHasScore (Node.bnode ogId),
    Triple.mk (Node.bnode ogId) rdfType score_cls,
    Triple.mk (Node.bnode ogId) rdfType qbObservationGroup,
    Triple.mk (Node.bnode ogId) scoresRefResource resource])

/-- First loop of _forward_chain_dcat: every dcat:Dataset is typed dcat:Resource. -/
def typeAdds (g : RdfGraph) : RdfGraph :=
  (g.filter (fun t => decide (t.p = rdfType ∧ t.o = dcatDataset))).map
    (fun t => Triple.mk t.s rdfType dcatResource)

/-- Second loop: every isPartOf(s, o) yields hasPart(o, s). -/
def partAdds (g : RdfGraph) : RdfGraph :=
  (g.filter (fun t => decide (t.p = dctIsPartOf))).map
    (fun t => Triple.mk t.o dctHasPart t.s)

/-- Third loop: every hasPart(s, o) yields isPartOf(o, s). -/
def invAdds (g : RdfGraph) : RdfGraph :=
  (g.filter (fun t => decide (t.p = dctHasPart))).map
    (fun t => Triple.mk t.o dctIsPartOf t.s)

/-- _forward_chain_dcat: the three add-loops run in sequence, each reading the
store as left by the previous one. -/
def _forward_chain_dcat (g : RdfGraph) : RdfGraph :=
  let g1 := g ++ typeAdds g
  let g2 := g1 ++ partAdds g1
  g2 ++ invAdds g2

/-! ## calculators/fair.py -/

def pid_indicators : List String :=
  ["doi:", "doi.org", "ark:", "purl.org", "linked.data.gov.au", "handle.net", "w3id.org"]

/-- The richness loop of calculate_f: one count per stored triple whose
predicate is created, modified, type or qualifiedAttribution. -/
def richnessCount (g : RdfGraph) (r : Node) : Nat :=
  (predicatesOf g r).countP
    (fun p => decide (p = dctCreated ∨ p = dctModified ∨ p = dctType ∨
                      p = provQualifiedAttribution))

/-- The f_value computed by calculate_f, with the catalogue ping performed
through the fetch capability (try/except httpx.HTTPError; a raised error adds
nothing, exactly like a non-success response). -/
def calculate_f_value (fetch : Fetcher) (g : RdfGraph) (resource : String) : Nat :=
  let v2 := if pid_indicators.any (fun pi => strHas resource pi) then 3 + 5 else 3
  let v4 := v2 + 1 + 1
  let c := richnessCount g (Node.uri resource)
  let v5 := if c = 1 then v4 + 1 else if c = 2 then v4 + 2 else if 2 < c then v4 + 3 else v4
  match (objectsOf g (Node.uri resource) dctIsPartOf).getLast? with
  | none => v5
  | some cat =>
      match fetch (nodeStr cat) with
      | FetchOutcome.success => v5 + 2 + 2
      | _ => v5 + 2

/-- One step of the dcat:theme accumulation loop in calculate_a. -/
def themeStep (acc : Nat) (o : Node) : Nat :=
  if o = darProtected ∨ o = darRestricted then acc + 0
  else if o = darMetadataOnly then acc + 2
  else if o = darConditional then acc + 4
  else if o = darEmbargoed then acc + 6
  else if o = darOpen then acc + 10
  else acc

/-- The a_value computed by calculate_a: fold of the theme loop. -/
def calculate_a_value (g : RdfGraph) (resource : String) : Nat :=
  (objectsOf g (Node.uri resource) dcatTheme).foldl themeStep 0

/-- The i_value computed by calculate_i. -/
def calculate_i_value (g : RdfGraph) (resource : String) : Nat :=
  let v := machine_readability_score g (Node.uri resource) + 2
  let v := v + shared_vocabs_ontologies g (Node.uri resource)
  let ign := v - 2
  if 3 ≤ ign then v + 2 else if 1 ≤ ign then v + 2 else v

/-- The r_value computed by calculate_r. -/
def calculate_r_value (g : RdfGraph) (resource : String) : Nat :=
  licensing_score g (Node.uri resource) + provenance_score g
    + data_source_score g (Node.uri resource)

def calculate_f (fetch : Fetcher) (g : RdfGraph) (resource : String)
    (score_container : Node) : RdfGraph :=
  _create_observation score_container "fair_obs_f" scoresFairFScore
    (Node.natLit (calculate_f_value fetch g resource))

def calculate_a (g : RdfGraph) (resource : String) (score_container : Node) : RdfGraph :=
  _create_observation score_container "fair_obs_a" scoresFairAScore
    (Node.natLit (calculate_a_value g resource))

def calculate_i (g : RdfGraph) (resource : String) (score_container : Node) : RdfGraph :=
  _create_observation score_container "fair_obs_i" scoresFairIScore
    (Node.natLit (calculate_i_value g resource))

def calculate_r (g : RdfGraph) (resource : String) (score_container : Node) : RdfGraph :=
  _create_observation score_container "fair_obs_r" scoresFairRScore
    (Node.natLit (calculate_r_value g resource))

/-- calculate_fair: the Score container for the pass plus the four dimension
Observations.  Blank-node ids model the fresh BNode() mints of one pass. -/
def calculate_fair (fetch : Fetcher) (g : RdfGraph) (resource : String) : RdfGraph :=
  let og := _create_observation_group (Node.uri resource) scoresFairScore "fair_og"
  og.2 ++ calculate_f fetch g resource og.1 ++ calculate_a g resource og.1
    ++ calculate_i g resource og.1 ++ calculate_r g resource og.1

/-! ## calculators/care.py -/

/-- calculate_c1_discoverable: fetch the resource URI itself; a raised
httpx.HTTPError returns 0, a success returns 1, anything else 0. -/
def calculate_c1_discoverable (fetch : Fetcher) (resource : String) : Nat :=
  match fetch resource with
  | FetchOutcome.error => 0
  | FetchOutcome.success => 1
  | FetchOutcome.failure => 0

def calculate_c1_searchable (sp : List Node) (g : RdfGraph) : Nat :=
  searchable_score sp g

def calculate_c1_accessible (g : RdfGraph) (resource : Node) : Nat :=
  if (objectsOf g resource dctAccessRights).isEmpty then 0 else 1

def calculate_care_c1 (fetch : Fetcher) (sp : List Node) (g : RdfGraph)
    (resource : String) : Nat :=
  calculate_c1_discoverable fetch resource + calculate_c1_searchable sp g
    + calculate_c1_accessible g (Node.uri resource)

/-- The catalogue string resolved for one isPartOf object inside
calculate_c2_discoverable: a blank node is replaced by str(value(o, prov:entity)),
which is the Python string None when that value is absent. -/
def resolveCatalogue (g : RdfGraph) (o : Node) : String :=
  match o with
  | Node.bnode b =>
      match valueOf g (Node.bnode b) provEntity with
      | some n => nodeStr n
      | none => "None"
  | _ => nodeStr o

/-- The loop of calculate_c2_discoverable over the isPartOf objects: a raised
fetch error returns 0 for the whole call, a success returns 1, and a
non-success response moves on to the next catalogue. -/
def c2discLoop (fetch : Fetcher) (g : RdfGraph) : List Node → Nat
  | [] => 0
  | o :: os =>
      match fetch (resolveCatalogue g o) with
      | FetchOutcome.error => 0
      | FetchOutcome.success => 1
      | FetchOutcome.failure => c2discLoop fetch g os

def calculate_c2_discoverable (fetch : Fetcher) (g : RdfGraph) (resource : Node) : Nat :=
  c2discLoop fetch g (objectsOf g resource dctIsPartOf)

/-- calculate_care_c2: the catalogue-discoverability point is gated on the
c1_score parameter being above 2 (Python short-circuit and), then one point
each for an rdfs:label and a dcterms:description. -/
def calculate_care_c2 (fetch : Fetcher) (g : RdfGraph) (resource : String)
    (c1_score : Nat) : Nat :=
  (if 2 < c1_score ∧ calculate_c2_discoverable fetch g (Node.uri resource) = 1
   then 1 else 0)
  + b2n (!(objectsOf g (Node.uri resource) rdfsLabel).isEmpty)
  + b2n (!(objectsOf g (Node.uri resource) dctDescription).isEmpty)

def calculate_care_c3 (g : RdfGraph) (resource : String) (c2_score : Nat) : Nat :=
  (if 2 < c2_score then 1 else 0)
  + b2n (!(objectsOf g (Node.uri resource) dcatDistribution).isEmpty)

/-- The c_value composed by calculate_care_c: C1, then C2 fed the computed C1,
then C3 fed the computed C2. -/
def calculate_care_c_value (fetch : Fetcher) (sp : List Node) (g : RdfGraph)
    (resource : String) : Nat :=
  let c1 := calculate_care_c1 fetch sp g resource
  let c2 := calculate_care_c2 fetch g resource c1
  let c3 := calculate_care_c3 g resource c2
  c1 + c2 + c3

def calculate_a11_notices (g : RdfGraph) (resource : Node) : Nat :=
  if hasTripleSO g resource inAttributionIncomplete
     || hasTripleSO g resource inOpenToCollaborate then 1 else 0

def calculate_a12_licence_rights (g : RdfGraph) (resource : Node) : Nat :=
  if !(objectsOf g resource dctRights).isEmpty
     || !(objectsOf g resource dctLicense).isEmpty
     || !(objectsOf g resource dctAccessRights).isEmpty then 2 else 0

def calculate_care_a1 (g : RdfGraph) (resource : String) : Nat :=
  calculate_a11_notices g (Node.uri resource)
    + calculate_a12_licence_rights g (Node.uri resource)

/-- calculate_data_governance_framework: 2 points when some catalogue the
resource is part of has a part whose label contains both governance and
indigenous, case-insensitively. -/
def calculate_data_governance_framework (g : RdfGraph) (resource : Node) : Nat :=
  if (objectsOf g resource dctIsPartOf).any (fun catalog =>
       (objectsOf g catalog dctHasPart).any (fun framework =>
         (objectsOf g framework rdfsLabel).any (fun label =>
           strHas (lowerStr (nodeStr label)) "governance"
             && strHas (lowerStr (nodeStr label)) "indigenous")))
  then 2 else 0

def calculate_care_a2 (g : RdfGraph) (resource : String) (a1_score : Nat) : Nat :=
  (if 0 < a1_score then 1 else 0)
    + calculate_data_governance_framework g (Node.uri resource)

def org_indigeneity (g : RdfGraph) (resource : Node) : Bool :=
  (objectsOf g resource provQualifiedAttribution).any (fun qabn =>
    (objectsOf g qabn dcatHadRole).any (fun role =>
      decide (role = orgIndigOwnedBy ∨ role = orgIndigOrganisation ∨
              role = orgIndigRunBy)))

def ind_indigeneity (g : RdfGraph) (resource : Node) : Bool :=
  (objectsOf g resource provQualifiedAttribution).any (fun qabn =>
    (objectsOf g qabn dcatHadRole).any (fun role =>
      decide (role = indIndigByIndigenousPeople)))

def calculate_a32_score (g : RdfGraph) (resource : Node) : Bool :=
  org_indigeneity g resource || ind_indigeneity g resource

def calculate_care_a3 (g : RdfGraph) (resource : String) (a2_score : Nat) : Nat :=
  if 0 < a2_score ∧ calculate_a32_score g (Node.uri resource) then 3 else 0

/-- The a_value composed by calculate_care_a: A1, then A2 fed A1, then A3 fed A2. -/
def calculate_care_a_value (g : RdfGraph) (resource : String) : Nat :=
  let a1 := calculate_care_a1 g resource
  let a2 := calculate_care_a2 g resource a1
  let a3 := calculate_care_a3 g resource a2
  a1 + a2 + a3

def calculate_r1 (g : RdfGraph) (resource : String) : Nat :=
  if 0 < calculate_a11_notices g (Node.uri resource)
     ∧ 1 < calculate_a12_licence_rights g (Node.uri resource)
     ∧ calculate_a32_score g (Node.uri resource) then 3 else 0

def calculate_r2 (_g : RdfGraph) (_resource : String) : Nat := 0

/-- calculate_r3, recomputing its upstream C and A sub-scores from scratch as
the source does. -/
def calculate_r3 (fetch : Fetcher) (sp : List Node) (g : RdfGraph)
    (resource : String) : Nat :=
  let base :=
    (if 0 < calculate_data_governance_framework g (Node.uri resource) then 1 else 0)
    + b2n (org_indigeneity g (Node.uri resource))
    + b2n (ind_indigeneity g (Node.uri resource))
  let c1 := calculate_care_c1 fetch sp g resource
  let c2 := calculate_care_c2 fetch g resource c1
  let c3 := calculate_care_c3 g resource c2
  let a1 := calculate_care_a1 g resource
  let a2 := calculate_care_a2 g resource a1
  let a3 := calculate_care_a3 g resource a2
  if 0 < c1 ∧ 0 < c2 ∧ 0 < c3 ∧ 0 < a1 ∧ 0 < a2 ∧ 0 < a3 then base + 3 else base

/-- The r_value composed by calculate_care_r. -/
def calculate_care_r_value (fetch : Fetcher) (sp : List Node) (g : RdfGraph)
    (resource : String) : Nat :=
  calculate_r1 g resource + calculate_r2 g resource + calculate_r3 fetch sp g resource

/-- calculate_e1, recomputing C1..C3 and A1..A2 from scratch as the source does. -/
def calculate_e1 (fetch : Fetcher) (sp : List Node) (g : RdfGraph)
    (resource : String) : Nat :=
  let c1 := calculate_care_c1 fetch sp g resource
  let c2 := calculate_care_c2 fetch g resource c1
  let c3 := calculate_care_c3 g resource c2
  let a1 := calculate_care_a1 g resource
  let a2 := calculate_care_a2 g resource a1
  if 1 < c1 ∧ 1 < c2 ∧ 1 < c3 ∧ 1 < a1 ∧ 1 < a2 then 3 else 0

def calculate_e2 (fetch : Fetcher) (sp : List Node) (g : RdfGraph)
    (resource : String) : Nat :=
  if 2 < calculate_e1 fetch sp g resource
     ∧ calculate_a32_score g (Node.uri resource) then 3 else 0

def calculate_e3 (fetch : Fetcher) (sp : List Node) (g : RdfGraph)
    (resource : String) : Nat :=
  let a1 := calculate_care_a1 g resource
  let a2 := calculate_care_a2 g resource a1
  if 2 < calculate_e2 fetch sp g resource ∧ 2 < a1 ∧ 1 < a2 then 3 else 0

/-- The e_value composed by calculate_care_e: only E1 is accumulated. -/
def calculate_care_e_value (fetch : Fetcher) (sp : List Node) (g : RdfGraph)
    (resource : String) : Nat :=
  calculate_e1 fetch sp g resource

def calculate_care_c (fetch : Fetcher) (sp : List Node) (g : RdfGraph)
    (resource : String) (score_container : Node) : RdfGraph :=
  _create_observation score_container "care_obs_c" scoresCareCScore
    (Node.natLit (calculate_care_c_value fetch sp g resource))

def calculate_care_a (g : RdfGraph) (resource : String) (score_container : Node) :
    RdfGraph :=
  _create_observation score_container "care_obs_a" scoresCareAScore
    (Node.natLit (calculate_care_a_value g resource))

def calculate_care_r (fetch : Fetcher) (sp : List Node) (g : RdfGraph)
    (resource : String) (score_container : Node) : RdfGraph :=
  _create_observation score_container "care_obs_r" scoresCareRScore
    (Node.natLit (calculate_care_r_value fetch sp g resource))

def calculate_care_e (fetch : Fetcher) (sp : List Node) (g : RdfGraph)
    (resource : String) (score_container : Node) : RdfGraph :=
  _create_observation score_container "care_obs_e" scoresCareEScore
    (Node.natLit (calculate_care_e_value fetch sp g resource))

/-- calculate_care: the Score container for the pass plus the four dimension
Observations. -/
def calculate_care (fetch : Fetcher) (sp : List Node) (g : RdfGraph)
    (resource : String) : RdfGraph :=
  let og := _create_observation_group (Node.uri resource) scoresCareScore "care_og"
  og.2 ++ calculate_care_c fetch sp g resource og.1
    ++ calculate_care_a g resource og.1
    ++ calculate_care_r fetch sp g resource og.1
    ++ calculate_care_e fetch sp g resource og.1

/-! ## Normalisers (fair.py normalise_fair_scores, care.py normalise_care_scores) -/

/-- Python int() applied to an RDF term: an integer literal or a numeric
lexical form; anything else raises, modelled as none. -/
def getNatVal : Node → Option Nat
  | Node.natLit n => some n
  | Node.lit l _ => l.toNat?
  | _ => none

/-- next(g.objects(None, p)): the first object of a triple with predicate p
anywhere in the graph; none models the raised StopIteration. -/
def firstValueOf (g : RdfGraph) (p : Node) : Option Node :=
  (((tset g).filter (fun t => decide (t.p = p))).map (fun t => t.o)).head?

/-- g.subjects(scores:hasScore, None): one subject per stored matching triple. -/
def scoredSubjects (g : RdfGraph) : List Node :=
  ((tset g).filter (fun t => decide (t.p = scoresHasScore))).map (fun t => t.s)

/-- Python float formatting f-string .2f of the fraction n / d: rounding
half-to-even, exact for every value the normalisers can receive (the binary
double error never crosses a rounding boundary for these denominators, and
the only exact ties, denominators that are powers of two, are represented
exactly, so double rounding never occurs). -/
def fmtDiv (n d : Nat) : String :=
  let p := 100 * n
  let q := p / d
  let rem := p % d
  let r := if 2 * rem < d then q
           else if d < 2 * rem then q + 1
           else if q % 2 = 0 then q else q + 1
  toString (r / 100) ++ "." ++
    (if r % 100 < 10 then "0" ++ toString (r % 100) else toString (r % 100))

/-- One loop iteration of normalise_fair_scores for subject s, given the four
raw values read from the whole graph.  The observation-group graph returned by
_create_observation_group is discarded by the source; the four g.add calls
recreate its container triples.  Blank ids are indexed by iteration. -/
def normaliseGroupFair (idx : Nat) (s : Node) (f a i r : Nat) : RdfGraph :=
  let og := Node.bnode ("fair_norm_og_" ++ toString idx)
  _create_observation og ("fair_norm_obs_f_" ++ toString idx)
      scoresFairFScoreNormalised (Node.lit (fmtDiv f 17) none)
  ++ _create_observation og ("fair_norm_obs_a_" ++ toString idx)
      scoresFairAScoreNormalised (Node.lit (fmtDiv a 10) none)
  ++ _create_observation og ("fair_norm_obs_i_" ++ toString idx)
      scoresFairIScoreNormalised (Node.lit (fmtDiv i 8) none)
  ++ _create_observation og ("fair_norm_obs_r_" ++ toString idx)
      scoresFairRScoreNormalised (Node.lit (fmtDiv r 7) none)
  ++ [Triple.mk og rdfType scoresFairScoreNormalised,
      Triple.mk og rdfType qbObservationGroup,
      Triple.mk og scoresRefResource s,
      Triple.mk s scoresHasScore og]

/-- normalise_fair_scores: for every subject holding a Score, emit a normalised
group whose four values are read from the first observation with each raw
measure anywhere in the graph (subject=None in the source), not from the
observations of that subject.  none models the StopIteration or int() error
raised when a raw value is missing or non-numeric. -/
def normalise_fair_scores (g : RdfGraph) : Option RdfGraph :=
  let ss := scoredSubjects g
  if ss.isEmpty then some g
  else
    match (firstValueOf g scoresFairFScore).bind getNatVal,
          (firstValueOf g scoresFairAScore).bind getNatVal,
          (firstValueOf g scoresFairIScore).bind getNatVal,
          (firstValueOf g scoresFairRScore).bind getNatVal with
    | some f, some a, some i, some r =>
        some (g ++ ss.enum.flatMap (fun e => normaliseGroupFair e.1 e.2 f a i r))
    | _, _, _, _ => none

/-- One loop iteration of normalise_care_scores, as for FAIR. -/
def normaliseGroupCare (idx : Nat) (s : Node) (c a r e : Nat) : RdfGraph :=
  let og := Node.bnode ("care_norm_og_" ++ toString idx)
  _create_observation og ("care_norm_obs_c_" ++ toString idx)
      scoresCareCScoreNormalised (Node.lit (fmtDiv c 8) none)
  ++ _create_observation og ("care_norm_obs_a_" ++ toString idx)
      scoresCareAScoreNormalised (Node.lit (fmtDiv a 9) none)
  ++ _create_observation og ("care_norm_obs_r_" ++ toString idx)
      scoresCareRScoreNormalised (Node.lit (fmtDiv r 9) none)
  ++ _create_observation og ("care_norm_obs_e_" ++ toString idx)
      scoresCareEScoreNormalised (Node.lit (fmtDiv e 3) none)
  ++ [Triple.mk og rdfType scoresCareScoreNormalised,
      Triple.mk og rdfType qbObservationGroup,
      Triple.mk og scoresRefResource s,
      Triple.mk s scoresHasScore og]

/-- normalise_care_scores, with the same subject=None reads as the FAIR
normaliser. -/
def normalise_care_scores (g : RdfGraph) : Option RdfGraph :=
  let ss := scoredSubjects g
  if ss.isEmpty then some g
  else
    match (firstValueOf g scoresCareCScore).bind getNatVal,
          (firstValueOf g scoresCareAScore).bind getNatVal,
          (firstValueOf g scoresCareRScore).bind getNatVal,
          (firstValueOf g scoresCareEScore).bind getNatVal with
    | some c, some a, some r, some e =>
        some (g ++ ss.enum.flatMap (fun x => normaliseGroupCare x.1 x.2 c a r e))
    | _, _, _, _ => none

/-! ## The award mapping of the spec for the FAIR A dimension -/

/-- The fixed per-theme point award stated by the rubric. -/
def themeAward (o : Node) : Nat :=
  if o = darProtected ∨ o = darRestricted then 0
  else if o = darMetadataOnly then 2
  else if o = darConditional then 4
  else if o = darEmbargoed then 6
  else if o = darOpen then 10
  else 0

/-! ## Concrete fixtures and fetch capabilities used by witnesses -/

def fetchAllSuccess : Fetcher := fun _ => FetchOutcome.success

def fetchAllError : Fetcher := fun _ => FetchOutcome.error

def fetchAllFailure : Fetcher := fun _ => FetchOutcome.failure

/-- Scenario 1 of the spec: a DOI-pattern resource, part of a catalogue, with
created, modified, type and qualifiedAttribution present. -/
def gScenarioOne : RdfGraph :=
  [Triple.mk (Node.uri "https://doi.org/10.5555/x") dctIsPartOf (Node.uri "https://cat.example.org/c"),
   Triple.mk (Node.uri "https://doi.org/10.5555/x") dctCreated (Node.lit "2020-01-01" none),
   Triple.mk (Node.uri "https://doi.org/10.5555/x") dctModified (Node.lit "2021-01-01" none),
   Triple.mk (Node.uri "https://doi.org/10.5555/x") dctType (Node.uri "http://example.org/t"),
   Triple.mk (Node.uri "https://doi.org/10.5555/x") provQualifiedAttribution (Node.bnode "qa1")]

/-- A resource declaring two access themes: open and embargoed. -/
def gTwoThemes : RdfGraph :=
  [Triple.mk (Node.uri "https://example.org/r") dcatTheme darOpen,
   Triple.mk (Node.uri "https://example.org/r") dcatTheme darEmbargoed]

/-- A resource whose only declared theme is open. -/
def gOpenTheme : RdfGraph :=
  [Triple.mk (Node.uri "https://example.org/r") dcatTheme darOpen]

/-- A resource with a license, a PROV predicate and a URI data source: every R
component at its maximum. -/
def gRMax : RdfGraph :=
  [Triple.mk (Node.uri "https://example.org/r") dctLicense (Node.uri "https://l.example.org"),
   Triple.mk (Node.uri "https://example.org/r") (Node.uri "http://www.w3.org/ns/prov#wasAttributedTo") (Node.uri "https://a.example.org"),
   Triple.mk (Node.uri "https://example.org/r") dctSource (Node.uri "https://s.example.org")]

/-- A Dataset typing, an isPartOf and a hasPart triple, for the
forward-chaining witness. -/
def gPartOnly : RdfGraph :=
  [Triple.mk (Node.uri "d") rdfType dcatDataset,
   Triple.mk (Node.uri "a") dctIsPartOf (Node.uri "b"),
   Triple.mk (Node.uri "c") dctHasPart (Node.uri "e")]

/-- A scores graph holding two scored resources with different raw FAIR values:
r1 at the maxima, r2 at zero. -/
def gFairScoresPair : RdfGraph :=
  [Triple.mk (Node.uri "r1") scoresHasScore (Node.bnode "og1"),
   Triple.mk (Node.bnode "og1") qbObservationProp (Node.bnode "o1f"),
   Triple.mk (Node.bnode "o1f") scoresFairFScore (Node.natLit 17),
   Triple.mk (Node.bnode "og1") qbObservationProp (Node.bnode "o1a"),
   Triple.mk (Node.bnode "o1a") scoresFairAScore (Node.natLit 10),
   Triple.mk (Node.bnode "og1") qbObservationProp (Node.bnode "o1i"),
   Triple.mk (Node.bnode "o1i") scoresFairIScore (Node.natLit 8),
   Triple.mk (Node.bnode "og1") qbObservationProp (Node.bnode "o1r"),
   Triple.mk (Node.bnode "o1r") scoresFairRScore (Node.natLit 7),
   Triple.mk (Node.uri "r2") scoresHasScore (Node.bnode "og2"),
   Triple.mk (Node.bnode "og2") qbObservationProp (Node.bnode "o2f"),
   Triple.mk (Node.bnode "o2f") scoresFairFScore (Node.natLit 0),
   Triple.mk (Node.bnode "og2") qbObservationProp (Node.bnode "o2a"),
   Triple.mk (Node.bnode "o2a") scoresFairAScore (Node.natLit 0),
   Triple.mk (Node.bnode "og2") qbObservationProp (Node.bnode "o2i"),
   Triple.mk (Node.bnode "o2i") scoresFairIScore (Node.natLit 0),
   Triple.mk (Node.bnode "og2") qbObservationProp (Node.bnode "o2r"),
   Triple.mk (Node.bnode "o2r") scoresFairRScore (Node.natLit 0)]

/-- The CARE twin of gFairScoresPair. -/
def gCareScoresPair : RdfGraph :=
  [Triple.mk (Node.uri "r1") scoresHasScore (Node.bnode "og1"),
   Triple.mk (Node.bnode "o1c") scoresCareCScore (Node.natLit 8),
   Triple.mk (Node.bnode "o1a") scoresCareAScore (Node.natLit 9),
   Triple.mk (Node.bnode "o1r") scoresCareRScore (Node.natLit 9),
   Triple.mk (Node.bnode "o1e") scoresCareEScore (Node.natLit 3),
   Triple.mk (Node.uri "r2") scoresHasScore (Node.bnode "og2"),
   Triple.mk (Node.bnode "o2c") scoresCareCScore (Node.natLit 0),
   Triple.mk (Node.bnode "o2a") scoresCareAScore (Node.natLit 0),
   Triple.mk (Node.bnode "o2r") scoresCareRScore (Node.natLit 0),
   Triple.mk (Node.bnode "o2e") scoresCareEScore (Node.natLit 0)]

/-- The graph produced by the FAIR normaliser on gFairScoresPair. -/
def fairNormOut : RdfGraph := (normalise_fair_scores gFairScoresPair).getD []

/-- The graph produced by the CARE normaliser on gCareScoresPair. -/
def careNormOut : RdfGraph := (normalise_care_scores gCareScoresPair).getD []

/-! ## Range lemmas for the sub-score functions -/

theorem b2n_le_one (b : Bool) : b2n b ≤ 1 := by
  cases b <;> simp [b2n]

theorem machineLoop_le_two (ls : List String) :
    ∀ v, v ≤ 2 → machineLoop v ls ≤ 2 := by
  induction ls with
  | nil => intro v hv; simpa [machineLoop] using hv
  | cons l ls ih =>
      intro v hv
      simp only [machineLoop]
      split_ifs with h1 h2
      · exact le_refl 2
      · exact ih 1 (by omega)
      · exact ih v hv

theorem machine_readability_score_le (g : RdfGraph) (r : Node) :
    machine_readability_score g r ≤ 2 :=
  machineLoop_le_two _ 0 (by omega)

theorem shared_vocabs_ontologies_le (g : RdfGraph) (r : Node) :
    shared_vocabs_ontologies g r ≤ 2 := by
  simp only [shared_vocabs_ontologies]
  split_ifs <;> omega

theorem licensing_score_le (g : RdfGraph) (r : Node) : licensing_score g r ≤ 2 := by
  simp only [licensing_score]
  split_ifs <;> omega

theorem provenance_score_le (g : RdfGraph) : provenance_score g ≤ 2 := by
  simp only [provenance_score]
  split_ifs <;> omega

theorem data_source_score_le (g : RdfGraph) (r : Node) : data_source_score g r ≤ 2 := by
  simp only [data_source_score]
  split
  · omega
  · omega
  · split_ifs <;> omega
  · omega
  · omega

theorem calculate_i_value_le (g : RdfGraph) (r : String) :
    calculate_i_value g r ≤ 8 := by
  have hm := machine_readability_score_le g (Node.uri r)
  have hv := shared_vocabs_ontologies_le g (Node.uri r)
  simp only [calculate_i_value]
  split_ifs <;> omega

theorem calculate_r_value_le (g : RdfGraph) (r : String) :
    calculate_r_value g r ≤ 6 := by
  have h1 := licensing_score_le g (Node.uri r)
  have h2 := provenance_score_le g
  have h3 := data_source_score_le g (Node.uri r)
  simp only [calculate_r_value]
  omega

theorem calculate_f_value_le (fetch : Fetcher) (g : RdfGraph) (r : String) :
    calculate_f_value fetch g r ≤ 17 := by
  simp only [calculate_f_value]
  split_ifs <;> (try split) <;> (try split) <;> omega

theorem calculate_c1_discoverable_le (fetch : Fetcher) (r : String) :
    calculate_c1_discoverable fetch r ≤ 1 := by
  simp only [calculate_c1_discoverable]
  split <;> omega

theorem searchable_score_le (sp : List Node) (g : RdfGraph) :
    searchable_score sp g ≤ 1 := by
  simp only [searchable_score]
  split_ifs <;> omega

theorem calculate_c1_accessible_le (g : RdfGraph) (r : Node) :
    calculate_c1_accessible g r ≤ 1 := by
  simp only [calculate_c1_accessible]
  split_ifs <;> omega

theorem calculate_care_c1_le (fetch : Fetcher) (sp : List Node) (g : RdfGraph)
    (r : String) : calculate_care_c1 fetch sp g r ≤ 3 := by
  have h1 := calculate_c1_discoverable_le fetch r
  have h2 := searchable_score_le sp g
  have h3 := calculate_c1_accessible_le g (Node.uri r)
  simp only [calculate_care_c1, calculate_c1_searchable]
  omega

theorem calculate_care_c2_le (fetch : Fetcher) (g : RdfGraph) (r : String)
    (c1v : Nat) : calculate_care_c2 fetch g r c1v ≤ 3 := by
  have h1 := b2n_le_one (!(objectsOf g (Node.uri r) rdfsLabel).isEmpty)
  have h2 := b2n_le_one (!(objectsOf g (Node.uri r) dctDescription).isEmpty)
  simp only [calculate_care_c2]
  split_ifs <;> omega

theorem calculate_care_c3_le (g : RdfGraph) (r : String) (c2v : Nat) :
    calculate_care_c3 g r c2v ≤ 2 := by
  have h1 := b2n_le_one (!(objectsOf g (Node.uri r) dcatDistribution).isEmpty)
  simp only [calculate_care_c3]
  split_ifs <;> omega

theorem calculate_care_c_value_le (fetch : Fetcher) (sp : List Node) (g : RdfGraph)
    (r : String) : calculate_care_c_value fetch sp g r ≤ 8 := by
  have h1 := calculate_care_c1_le fetch sp g r
  have h2 := calculate_care_c2_le fetch g r (calculate_care_c1 fetch sp g r)
  have h3 := calculate_care_c3_le g r
    (calculate_care_c2 fetch g r (calculate_care_c1 fetch sp g r))
  simp only [calculate_care_c_value]
  omega

theorem calculate_a11_notices_le (g : RdfGraph) (r : Node) :
    calculate_a11_notices g r ≤ 1 := by
  simp only [calculate_a11_notices]
  split_ifs <;> omega

theorem calculate_a12_licence_rights_le (g : RdfGraph) (r : Node) :
    calculate_a12_licence_rights g r ≤ 2 := by
  simp only [calculate_a12_licence_rights]
  split_ifs <;> omega

theorem calculate_care_a1_le (g : RdfGraph) (r : String) :
    calculate_care_a1 g r ≤ 3 := by
  have h1 := calculate_a11_notices_le g (Node.uri r)
  have h2 := calculate_a12_licence_rights_le g (Node.uri r)
  simp only [calculate_care_a1]
  omega

theorem calculate_data_governance_framework_le (g : RdfGraph) (r : Node) :
    calculate_data_governance_framework g r ≤ 2 := by
  simp only [calculate_data_governance_framework]
  split_ifs <;> omega

theorem calculate_care_a2_le (g : RdfGraph) (r : String) (a1v : Nat) :
    calculate_care_a2 g r a1v ≤ 3 := by
  have h1 := calculate_data_governance_framework_le g (Node.uri r)
  simp only [calculate_care_a2]
  split_ifs <;> omega

theorem calculate_care_a3_le (g : RdfGraph) (r : String) (a2v : Nat) :
    calculate_care_a3 g r a2v ≤ 3 := by
  simp only [calculate_care_a3]
  split_ifs <;> omega

theorem calculate_care_a_value_le (g : RdfGraph) (r : String) :
    calculate_care_a_value g r ≤ 9 := by
  have h1 := calculate_care_a1_le g r
  have h2 := calculate_care_a2_le g r (calculate_care_a1 g r)
  have h3 := calculate_care_a3_le g r (calculate_care_a2 g r (calculate_care_a1 g r))
  simp only [calculate_care_a_value]
  omega

theorem calculate_r1_le (g : RdfGraph) (r : String) : calculate_r1 g r ≤ 3 := by
  simp only [calculate_r1]
  split_ifs <;> omega

theorem calculate_r3_le (fetch : Fetcher) (sp : List Node) (g : RdfGraph)
    (r : String) : calculate_r3 fetch sp g r ≤ 6 := by
  have h1 := b2n_le_one (org_indigeneity g (Node.uri r))
  have h2 := b2n_le_one (ind_indigeneity g (Node.uri r))
  simp only [calculate_r3]
  split_ifs <;> omega

theorem calculate_care_r_value_le (fetch : Fetcher) (sp : List Node) (g : RdfGraph)
    (r : String) : calculate_care_r_value fetch sp g r ≤ 9 := by
  have h1 := calculate_r1_le g r
  have h2 := calculate_r3_le fetch sp g r
  simp only [calculate_care_r_value, calculate_r2]
  omega

theorem calculate_e1_cases (fetch : Fetcher) (sp : List Node) (g : RdfGraph)
    (r : String) : calculate_e1 fetch sp g r = 0 ∨ calculate_e1 fetch sp g r = 3 := by
  simp only [calculate_e1]
  split_ifs <;> simp

theorem calculate_care_e_value_le (fetch : Fetcher) (sp : List Node) (g : RdfGraph)
    (r : String) : calculate_care_e_value fetch sp g r ≤ 3 := by
  rcases calculate_e1_cases fetch sp g r with h | h <;>
    simp [calculate_care_e_value, h]

theorem themeStep_eq (acc : Nat) (o : Node) : themeStep acc o = acc + themeAward o := by
  simp only [themeStep, themeAward]
  split_ifs <;> omega

theorem themeAward_le (o : Node) : themeAward o ≤ 10 := by
  simp only [themeAward]
  split_ifs <;> omega

theorem foldl_themeStep (l : List Node) :
    ∀ n : Nat, l.foldl themeStep n = n + (l.map themeAward).sum := by
  induction l with
  | nil => intro n; simp
  | cons o l ih =>
      intro n
      simp only [List.foldl_cons, List.map_cons, List.sum_cons, themeStep_eq, ih]
      omega

/-- C1 (amended): every raw dimension score is bounded by its documented
maximum: FAIR F by 17, I by 8, R by 7; CARE C by 8, A by 9, R by 9, E by 3 (all
values are naturals, hence at least 0); and the FAIR A dimension is bounded by
10 provided the resource declares at most one dcat:theme value.  With several
declared themes the A awards accumulate additively and can pass 10, so the
unconditional FAIR A bound of the original claim fails. -/
theorem dimension_scores_bounded :
    ∀ (fetch : Fetcher) (sp : List Node) (g : RdfGraph) (r : String),
    calculate_f_value fetch g r ≤ 17
    ∧ calculate_i_value g r ≤ 8
    ∧ calculate_r_value g r ≤ 7
    ∧ calculate_care_c_value fetch sp g r ≤ 8
    ∧ calculate_care_a_value g r ≤ 9
    ∧ calculate_care_r_value fetch sp g r ≤ 9
    ∧ calculate_care_e_value fetch sp g r ≤ 3
    ∧ ((objectsOf g (Node.uri r) dcatTheme).length ≤ 1 →
         calculate_a_value g r ≤ 10) := by
  intro fetch sp g r
  refine ⟨calculate_f_value_le fetch g r, calculate_i_value_le g r,
    le_trans (calculate_r_value_le g r) (by omega),
    calculate_care_c_value_le fetch sp g r, calculate_care_a_value_le g r,
    calculate_care_r_value_le fetch sp g r, calculate_care_e_value_le fetch sp g r,
    ?_⟩
  intro hlen
  unfold calculate_a_value
  rw [foldl_themeStep]
  rcases hobj : objectsOf g (Node.uri r) dcatTheme with _ | ⟨o, tl⟩
  · simp
  · rcases tl with _ | ⟨o2, tl2⟩
    · have := themeAward_le o
      simp
      omega
    · rw [hobj] at hlen
      simp at hlen

/-- C1 counterexample: a resource declaring both the open and the embargoed
access themes receives FAIR A = 16, outside the documented range [0, 10]. -/
theorem fairA_exceeds_documented_max :
    calculate_a_value gTwoThemes "https://example.org/r" = 16
    ∧ ¬ calculate_a_value gTwoThemes "https://example.org/r" ≤ 10 := by
  constructor <;> decide

/-- Witness for dimension_scores_bounded at a concrete single-theme input. -/
theorem dimension_scores_bounded_witness :
    (objectsOf gOpenTheme (Node.uri "https://example.org/r") dcatTheme).length ≤ 1
    ∧ calculate_a_value gOpenTheme "https://example.org/r" ≤ 10 :=
  ⟨by decide,
   (dimension_scores_bounded fetchAllError [] gOpenTheme
      "https://example.org/r").2.2.2.2.2.2.2 (by decide)⟩

/-- C4: the FAIR A dimension is the sum, over the declared dcat:theme objects,
of the fixed award mapping (protected and restricted 0, metadata-only 2,
conditional 4, embargoed 6, open 10, anything else 0); a resource whose only
declared theme is open scores exactly 10. -/
theorem fairA_sums_theme_awards :
    ∀ (g : RdfGraph) (r : String),
    calculate_a_value g r = ((objectsOf g (Node.uri r) dcatTheme).map themeAward).sum
    ∧ (objectsOf g (Node.uri r) dcatTheme = [darOpen] →
         calculate_a_value g r = 10) := by
  intro g r
  constructor
  · simp [calculate_a_value, foldl_themeStep]
  · intro h
    unfold calculate_a_value
    rw [h]
    decide

/-- Witness for fairA_sums_theme_awards at a concrete open-theme input. -/
theorem fairA_sums_theme_awards_witness :
    objectsOf gOpenTheme (Node.uri "https://example.org/r") dcatTheme = [darOpen]
    ∧ calculate_a_value gOpenTheme "https://example.org/r" = 10 :=
  ⟨by decide,
   (fairA_sums_theme_awards gOpenTheme "https://example.org/r").2 (by decide)⟩

/-- C3 (amended): the FAIR R dimension is licensing_score (2 when any
dcterms:license value is present, else 0) plus provenance_score (2 when any
predicate of the graph is in the PROV ontology or in the fixed extra list,
else 0) plus data_source_score (0 without dcterms:source; 2 when its value is
a URI; 1 when it is a literal typed xsd:anyURI; else 0); the maximum
attainable R value is 6 (the documented divisor used by the normaliser is 7),
and 6 is attained. -/
theorem fairR_component_formula :
    (∀ (g : RdfGraph) (r : String),
      (calculate_r_value g r =
         (if objectsOf g (Node.uri r) dctLicense ≠ [] then 2 else 0)
         + (if (allPredicates g).any isProvPredicate
               ∨ (allPredicates g).any
                   (fun p => decide (p ∈ additional_provenance_properties))
            then 2 else 0)
         + (match valueOf g (Node.uri r) dctSource with
            | none => 0
            | some (Node.uri _) => 2
            | some (Node.lit _ d) => if d = some xsdAnyURIStr then 1 else 0
            | some (Node.natLit _) => 0
            | some (Node.bnode _) => 0))
      ∧ calculate_r_value g r ≤ 6)
    ∧ calculate_r_value gRMax "https://example.org/r" = 6 := by
  refine ⟨fun g r => ⟨?_, calculate_r_value_le g r⟩, by decide⟩
  simp only [calculate_r_value, licensing_score, provenance_score,
    data_source_score, objectsForProps, data_usage_license_properties,
    List.flatMap_cons, List.flatMap_nil, List.append_nil]
  congr 1
  congr 1
  · exact if_congr List.length_pos (by rfl) (by rfl)
  · split_ifs <;> tauto

/-- C3 counterexample: no graph and resource attain the documented FAIR R
maximum of 7, since each of the three components is bounded by 2. -/
theorem fairR_seven_unattainable :
    ¬ ∃ (g : RdfGraph) (r : String), calculate_r_value g r = 7 := by
  rintro ⟨g, r, h⟩
  have := calculate_r_value_le g r
  omega

theorem countP_or_split {α : Type} (l : List α) (p q : α → Bool)
    (h : ∀ a, p a = true → q a = false) :
    l.countP (fun a => p a || q a) = l.countP p + l.countP q := by
  induction l with
  | nil => simp
  | cons a l ih =>
      simp only [List.countP_cons, ih]
      cases hp : p a
      · cases hq : q a
        · simp [hp, hq]
        · simp [hp, hq]
          omega
      · have hq := h a hp
        simp [hp, hq]
        omega

theorem richnessCount_split (g : RdfGraph) (r : Node) :
    richnessCount g r =
      (predicatesOf g r).countP (fun p => decide (p = dctCreated))
      + (predicatesOf g r).countP (fun p => decide (p = dctModified))
      + (predicatesOf g r).countP (fun p => decide (p = dctType))
      + (predicatesOf g r).countP (fun p => decide (p = provQualifiedAttribution)) := by
  unfold richnessCount
  simp only [Bool.decide_or]
  rw [countP_or_split, countP_or_split, countP_or_split]
  · omega
  · intro a ha
    simp only [decide_eq_true_eq] at ha
    subst ha
    decide
  · intro a ha
    simp only [decide_eq_true_eq] at ha
    subst ha
    decide
  · intro a ha
    simp only [decide_eq_true_eq] at ha
    subst ha
    simp only [Bool.or_eq_false_iff]
    refine ⟨by decide, by decide, by decide⟩

theorem countP_predicates_pos (g : RdfGraph) (s p : Node)
    (h : objectsOf g s p ≠ []) :
    0 < (predicatesOf g s).countP (fun q => decide (q = p)) := by
  rw [List.countP_pos_iff]
  unfold objectsOf at h
  have hf : (tset g).filter (fun t => decide (t.s = s ∧ t.p = p)) ≠ [] := by
    intro hnil
    rw [hnil] at h
    exact h rfl
  rcases List.exists_mem_of_ne_nil _ hf with ⟨t, ht⟩
  have ht2 := List.mem_filter.mp ht
  have hsp := of_decide_eq_true ht2.2
  refine ⟨p, ?_, by simp⟩
  unfold predicatesOf
  exact List.mem_map.mpr ⟨t, List.mem_filter.mpr ⟨ht2.1, by simp [hsp.1]⟩, hsp.2⟩

/-- C5 (amended): a resource with a persistent-identifier pattern in its URI,
declared part of a catalogue whose fetch succeeds, and carrying all four of
created, modified, type and qualifiedAttribution, receives
fairFScore = 3 + 5 + 1 + 1 + 3 + 2 + 2 = 17: the source adds an unconditional
further +1 for the data being described at all, which the claimed sum of 16
omits.  The +5 PID bonus is awarded at most once and the richness count of at
least 4 maps to the greater-than-2 tier of +3. -/
theorem scenario_one_fair_f (fetch : Fetcher) (g : RdfGraph) (r : String)
    (cat : Node)
    (hpid : pid_indicators.any (fun pi => strHas r pi) = true)
    (hc : objectsOf g (Node.uri r) dctCreated ≠ [])
    (hm : objectsOf g (Node.uri r) dctModified ≠ [])
    (ht : objectsOf g (Node.uri r) dctType ≠ [])
    (hq : objectsOf g (Node.uri r) provQualifiedAttribution ≠ [])
    (hcat : (objectsOf g (Node.uri r) dctIsPartOf).getLast? = some cat)
    (hfetch : fetch (nodeStr cat) = FetchOutcome.success) :
    calculate_f_value fetch g r = 17 := by
  have h1 := countP_predicates_pos g (Node.uri r) dctCreated hc
  have h2 := countP_predicates_pos g (Node.uri r) dctModified hm
  have h3 := countP_predicates_pos g (Node.uri r) dctType ht
  have h4 := countP_predicates_pos g (Node.uri r) provQualifiedAttribution hq
  have hrich : 2 < richnessCount g (Node.uri r) := by
    rw [richnessCount_split]
    omega
  simp only [calculate_f_value, hpid, hcat, hfetch, if_true]
  rw [if_neg (by omega), if_neg (by omega), if_pos hrich]

/-- C5 counterexample: at the concrete scenario-1 input the source computes
fairFScore 17, not the claimed 16. -/
theorem fairF_documented_scenario_not_sixteen :
    calculate_f_value fetchAllSuccess gScenarioOne "https://doi.org/10.5555/x" = 17
    ∧ ¬ calculate_f_value fetchAllSuccess gScenarioOne "https://doi.org/10.5555/x"
        = 16 := by
  constructor <;> decide

/-- Witness for scenario_one_fair_f at the concrete scenario-1 input. -/
theorem scenario_one_fair_f_witness :
    pid_indicators.any (fun pi => strHas "https://doi.org/10.5555/x" pi) = true
    ∧ calculate_f_value fetchAllSuccess gScenarioOne "https://doi.org/10.5555/x"
        = 17 :=
  ⟨by decide,
   scenario_one_fair_f fetchAllSuccess gScenarioOne "https://doi.org/10.5555/x"
     (Node.uri "https://cat.example.org/c") (by decide) (by decide) (by decide)
     (by decide) (by decide) (by decide) (by decide)⟩

/-- C7: calculate_care_c2 awards its catalogue point exactly when the c1_score
passed as parameter is above 2 and the catalogue fetch check returns 1; it
depends on C1 only through that parameter (any two parameter values on the
same side of the threshold give the same result), and the composer
calculate_care_c feeds it exactly the value computed by calculate_care_c1 and
feeds calculate_care_c3 exactly the resulting C2 value. -/
theorem careC2_gating_and_composition :
    ∀ (fetch : Fetcher) (sp : List Node) (g : RdfGraph) (r : String) (c1v : Nat),
    (calculate_care_c_value fetch sp g r =
       calculate_care_c1 fetch sp g r
       + calculate_care_c2 fetch g r (calculate_care_c1 fetch sp g r)
       + calculate_care_c3 g r
           (calculate_care_c2 fetch g r (calculate_care_c1 fetch sp g r)))
    ∧ (calculate_care_c2 fetch g r c1v =
         (if 2 < c1v ∧ calculate_c2_discoverable fetch g (Node.uri r) = 1
          then 1 else 0)
         + b2n (!(objectsOf g (Node.uri r) rdfsLabel).isEmpty)
         + b2n (!(objectsOf g (Node.uri r) dctDescription).isEmpty))
    ∧ (∀ c1a c1b, 2 < c1a → 2 < c1b →
         calculate_care_c2 fetch g r c1a = calculate_care_c2 fetch g r c1b)
    ∧ (∀ c1a c1b, c1a ≤ 2 → c1b ≤ 2 →
         calculate_care_c2 fetch g r c1a = calculate_care_c2 fetch g r c1b) := by
  intro fetch sp g r c1v
  refine ⟨rfl, rfl, ?_, ?_⟩
  · intro c1a c1b ha hb
    simp [calculate_care_c2, ha, hb]
  · intro c1a c1b ha hb
    have hna : ¬ 2 < c1a := by omega
    have hnb : ¬ 2 < c1b := by omega
    simp [calculate_care_c2, hna, hnb]

/-- Witness for careC2_gating_and_composition: two above-threshold and two
below-threshold parameter values agree at a concrete input. -/
theorem careC2_gating_and_composition_witness :
    2 < 3 ∧ 2 < 4 ∧ (1 : Nat) ≤ 2 ∧ (2 : Nat) ≤ 2
    ∧ calculate_care_c2 fetchAllError gScenarioOne "https://example.org/r" 3
        = calculate_care_c2 fetchAllError gScenarioOne "https://example.org/r" 4
    ∧ calculate_care_c2 fetchAllError gScenarioOne "https://example.org/r" 1
        = calculate_care_c2 fetchAllError gScenarioOne "https://example.org/r" 2 :=
  ⟨by omega, by omega, by omega, by omega,
   (careC2_gating_and_composition fetchAllError [] gScenarioOne
      "https://example.org/r" 0).2.2.1 3 4 (by omega) (by omega),
   (careC2_gating_and_composition fetchAllError [] gScenarioOne
      "https://example.org/r" 0).2.2.2 1 2 (by omega) (by omega)⟩

/-- C8: the discoverability and reachability checks are total over every fetch
outcome, including a raised transport error: calculate_c1_discoverable is 1
exactly on success, and whenever no fetch succeeds the C1 and C2
discoverability points are 0 and calculate_f behaves exactly as with a fetch
that always returns a non-success response, so a failure or raised error is
absorbed locally and contributes nothing. -/
theorem network_failures_score_zero :
    ∀ (fetch : Fetcher) (g : RdfGraph) (r : String),
    (calculate_c1_discoverable fetch r
       = if fetch r = FetchOutcome.success then 1 else 0)
    ∧ ((∀ u, fetch u ≠ FetchOutcome.success) →
         calculate_c1_discoverable fetch r = 0
         ∧ calculate_c2_discoverable fetch g (Node.uri r) = 0
         ∧ calculate_f_value fetch g r = calculate_f_value fetchAllFailure g r) := by
  intro fetch g r
  constructor
  · unfold calculate_c1_discoverable
    cases hf : fetch r <;> simp [hf]
  · intro hnone
    refine ⟨?_, ?_, ?_⟩
    · unfold calculate_c1_discoverable
      cases hf : fetch r with
      | success => exact absurd hf (hnone r)
      | failure => rfl
      | error => rfl
    · unfold calculate_c2_discoverable
      generalize objectsOf g (Node.uri r) dctIsPartOf = os
      induction os with
      | nil => rfl
      | cons o os ih =>
          unfold c2discLoop
          cases hf : fetch (resolveCatalogue g o) with
          | success => exact absurd hf (hnone _)
          | failure => exact ih
          | error => rfl
    · simp only [calculate_f_value]
      cases hlast : (objectsOf g (Node.uri r) dctIsPartOf).getLast? with
      | none => rfl
      | some cat =>
          cases hf : fetch (nodeStr cat) with
          | success => exact absurd hf (hnone _)
          | failure => simp [hf, fetchAllFailure]
          | error => simp [hf, fetchAllFailure]

/-- Witness for network_failures_score_zero with a fetch that always raises. -/
theorem network_failures_score_zero_witness :
    calculate_c1_discoverable fetchAllError "https://example.org/r" = 0
    ∧ calculate_c2_discoverable fetchAllError gScenarioOne
        (Node.uri "https://example.org/r") = 0
    ∧ calculate_f_value fetchAllError gScenarioOne "https://example.org/r"
        = calculate_f_value fetchAllFailure gScenarioOne "https://example.org/r" :=
  (network_failures_score_zero fetchAllError gScenarioOne "https://example.org/r").2
    (fun _ h => FetchOutcome.noConfusion h)

/-- C10: in a CARE pass the careEScore observation value equals the value of
calculate_e1 alone (calculate_e2 and calculate_e3 never contribute to the
dimension), and that value is always 0 or 3. -/
theorem careE_equals_e1 :
    ∀ (fetch : Fetcher) (sp : List Node) (g : RdfGraph) (r : String) (n v : Node),
    (Triple.mk n scoresCareEScore v ∈ calculate_care fetch sp g r →
       v = Node.natLit (calculate_e1 fetch sp g r))
    ∧ (calculate_e1 fetch sp g r = 0 ∨ calculate_e1 fetch sp g r = 3) := by
  intro fetch sp g r n v
  refine ⟨?_, calculate_e1_cases fetch sp g r⟩
  intro hmem
  simp only [calculate_care, calculate_care_c, calculate_care_a, calculate_care_r,
    calculate_care_e, _create_observation, _create_observation_group,
    List.mem_append, List.mem_cons, List.not_mem_nil, or_false,
    Triple.mk.injEq, rdfType, dcatResource, scoresHasScore, scoresCareScore,
    qbObservationGroup, scoresRefResource, qbObservationType, qbObservationProp,
    scoresCareCScore, scoresCareAScore, scoresCareRScore, scoresCareEScore,
    Node.uri.injEq, Node.bnode.injEq, String.reduceEq, and_false, false_and,
    and_true, true_and, false_or, or_false] at hmem
  rcases hmem with ⟨h1, h2⟩
  exact h2

/-- Witness for careE_equals_e1 on the empty graph, where E1 is 0. -/
theorem careE_equals_e1_witness :
    Triple.mk (Node.bnode "care_obs_e") scoresCareEScore (Node.natLit 0)
      ∈ calculate_care fetchAllError [] [] "https://example.org/r"
    ∧ Node.natLit 0
        = Node.natLit (calculate_e1 fetchAllError [] [] "https://example.org/r") :=
  ⟨by decide,
   (careE_equals_e1 fetchAllError [] [] "https://example.org/r"
      (Node.bnode "care_obs_e") (Node.natLit 0)).1 (by decide)⟩

/-- C9: in the graph produced by one calculate_fair (or calculate_care) pass,
every node typed qb:Observation is the object of exactly one qb:observation
triple, and that triple links it to the Score container minted for the pass. -/
theorem observation_containment :
    ∀ (fetch : Fetcher) (sp : List Node) (g : RdfGraph) (r : String) (n : Node),
    (Triple.mk n rdfType qbObservationType ∈ calculate_fair fetch g r →
       (calculate_fair fetch g r).countP
           (fun t => decide (t.p = qbObservationProp ∧ t.o = n)) = 1
       ∧ Triple.mk (Node.bnode "fair_og") qbObservationProp n
           ∈ calculate_fair fetch g r)
    ∧ (Triple.mk n rdfType qbObservationType ∈ calculate_care fetch sp g r →
       (calculate_care fetch sp g r).countP
           (fun t => decide (t.p = qbObservationProp ∧ t.o = n)) = 1
       ∧ Triple.mk (Node.bnode "care_og") qbObservationProp n
           ∈ calculate_care fetch sp g r) := by
  intro fetch sp g r n
  constructor
  · intro hmem
    simp only [calculate_fair, calculate_f, calculate_a, calculate_i, calculate_r,
      _create_observation, _create_observation_group, List.mem_append,
      List.mem_cons, List.not_mem_nil, or_false, Triple.mk.injEq, rdfType,
      dcatResource, scoresHasScore, scoresFairScore, qbObservationGroup,
      scoresRefResource, qbObservationType, qbObservationProp, scoresFairFScore,
      scoresFairAScore, scoresFairIScore, scoresFairRScore, Node.uri.injEq,
      Node.bnode.injEq, String.reduceEq, and_false, false_and, and_true,
      true_and, false_or, or_false] at hmem
    rcases hmem with ((h | h) | h) | h <;>
    constructor <;>
    simp [h, calculate_fair, calculate_f, calculate_a, calculate_i, calculate_r,
      _create_observation, _create_observation_group, List.countP_cons,
      List.countP_nil, Triple.mk.injEq, rdfType, dcatResource, scoresHasScore,
      scoresFairScore, qbObservationGroup, scoresRefResource, qbObservationType,
      qbObservationProp, scoresFairFScore, scoresFairAScore, scoresFairIScore,
      scoresFairRScore, Node.uri.injEq, Node.bnode.injEq]
  · intro hmem
    simp only [calculate_care, calculate_care_c, calculate_care_a,
      calculate_care_r, calculate_care_e, _create_observation,
      _create_observation_group, List.mem_append, List.mem_cons,
      List.not_mem_nil, or_false, Triple.mk.injEq, rdfType, dcatResource,
      scoresHasScore, scoresCareScore, qbObservationGroup, scoresRefResource,
      qbObservationType, qbObservationProp, scoresCareCScore, scoresCareAScore,
      scoresCareRScore, scoresCareEScore, Node.uri.injEq, Node.bnode.injEq,
      String.reduceEq, and_false, false_and, and_true, true_and, false_or,
      or_false] at hmem
    rcases hmem with ((h | h) | h) | h <;>
    constructor <;>
    simp [h, calculate_care, calculate_care_c, calculate_care_a,
      calculate_care_r, calculate_care_e, _create_observation,
      _create_observation_group, List.countP_cons, List.countP_nil,
      Triple.mk.injEq, rdfType, dcatResource, scoresHasScore, scoresCareScore,
      qbObservationGroup, scoresRefResource, qbObservationType,
      qbObservationProp, scoresCareCScore, scoresCareAScore, scoresCareRScore,
      scoresCareEScore, Node.uri.injEq, Node.bnode.injEq]

/-- Witness for observation_containment at concrete FAIR and CARE passes over
the empty graph. -/
theorem observation_containment_witness :
    Triple.mk (Node.bnode "fair_obs_f") rdfType qbObservationType
      ∈ calculate_fair fetchAllError [] "https://example.org/r"
    ∧ (calculate_fair fetchAllError [] "https://example.org/r").countP
        (fun t => decide (t.p = qbObservationProp
                          ∧ t.o = Node.bnode "fair_obs_f")) = 1
    ∧ Triple.mk (Node.bnode "fair_og") qbObservationProp (Node.bnode "fair_obs_f")
        ∈ calculate_fair fetchAllError [] "https://example.org/r"
    ∧ Triple.mk (Node.bnode "care_obs_c") rdfType qbObservationType
        ∈ calculate_care fetchAllError [] [] "https://example.org/r"
    ∧ (calculate_care fetchAllError [] [] "https://example.org/r").countP
        (fun t => decide (t.p = qbObservationProp
                          ∧ t.o = Node.bnode "care_obs_c")) = 1
    ∧ Triple.mk (Node.bnode "care_og") qbObservationProp (Node.bnode "care_obs_c")
        ∈ calculate_care fetchAllError [] [] "https://example.org/r" := by
  have h := (observation_containment fetchAllError [] [] "https://example.org/r"
    (Node.bnode "fair_obs_f")).1 (by decide)
  have h2 := (observation_containment fetchAllError [] [] "https://example.org/r"
    (Node.bnode "care_obs_c")).2 (by decide)
  exact ⟨by decide, h.1, h.2, by decide, h2.1, h2.2⟩

theorem mem_typeAdds (g : RdfGraph) (t : Triple) :
    t ∈ typeAdds g ↔
      ∃ s, Triple.mk s rdfType dcatDataset ∈ g
           ∧ t = Triple.mk s rdfType dcatResource := by
  unfold typeAdds
  simp only [List.mem_map, List.mem_filter, decide_eq_true_eq]
  constructor
  · rintro ⟨⟨us, up, uo⟩, ⟨hu, hp, ho⟩, rfl⟩
    dsimp at hp ho ⊢
    subst hp
    subst ho
    exact ⟨us, hu, rfl⟩
  · rintro ⟨s, hs, rfl⟩
    exact ⟨Triple.mk s rdfType dcatDataset, ⟨hs, rfl, rfl⟩, rfl⟩

theorem mem_partAdds (g : RdfGraph) (t : Triple) :
    t ∈ partAdds g ↔
      ∃ a b, Triple.mk a dctIsPartOf b ∈ g ∧ t = Triple.mk b dctHasPart a := by
  unfold partAdds
  simp only [List.mem_map, List.mem_filter, decide_eq_true_eq]
  constructor
  · rintro ⟨⟨us, up, uo⟩, ⟨hu, hp⟩, rfl⟩
    dsimp at hp ⊢
    subst hp
    exact ⟨us, uo, hu, rfl⟩
  · rintro ⟨a, b, hab, rfl⟩
    exact ⟨Triple.mk a dctIsPartOf b, ⟨hab, rfl⟩, rfl⟩

theorem mem_invAdds (g : RdfGraph) (t : Triple) :
    t ∈ invAdds g ↔
      ∃ a b, Triple.mk a dctHasPart b ∈ g ∧ t = Triple.mk b dctIsPartOf a := by
  unfold invAdds
  simp only [List.mem_map, List.mem_filter, decide_eq_true_eq]
  constructor
  · rintro ⟨⟨us, up, uo⟩, ⟨hu, hp⟩, rfl⟩
    dsimp at hp ⊢
    subst hp
    exact ⟨us, uo, hu, rfl⟩
  · rintro ⟨a, b, hab, rfl⟩
    exact ⟨Triple.mk a dctHasPart b, ⟨hab, rfl⟩, rfl⟩

theorem isPartOf_mem_stage1 (g : RdfGraph) (a b : Node) :
    Triple.mk a dctIsPartOf b ∈ g ++ typeAdds g ↔
      Triple.mk a dctIsPartOf b ∈ g := by
  simp only [List.mem_append, mem_typeAdds, Triple.mk.injEq]
  constructor
  · rintro (hg | ⟨s, hs, _, hpo, _⟩)
    · exact hg
    · exact absurd hpo (by decide)
  · exact Or.inl

theorem hasPart_mem_stage2 (g : RdfGraph) (a b : Node) :
    Triple.mk a dctHasPart b ∈ (g ++ typeAdds g) ++ partAdds (g ++ typeAdds g) ↔
      Triple.mk a dctHasPart b ∈ g ∨ Triple.mk b dctIsPartOf a ∈ g := by
  constructor
  · intro h
    rcases List.mem_append.mp h with h1 | hpart
    · rcases List.mem_append.mp h1 with hg | hty
      · exact Or.inl hg
      · rcases (mem_typeAdds g _).mp hty with ⟨s, hs, heq⟩
        rw [Triple.mk.injEq] at heq
        exact absurd heq.2.1 (by decide)
    · rcases (mem_partAdds _ _).mp hpart with ⟨x, y, hxy, heq⟩
      rw [Triple.mk.injEq] at heq
      obtain ⟨ha, hp, hb⟩ := heq
      subst ha
      subst hb
      exact Or.inr ((isPartOf_mem_stage1 g _ _).mp hxy)
  · rintro (hg | hio)
    · exact List.mem_append.mpr (Or.inl (List.mem_append.mpr (Or.inl hg)))
    · exact List.mem_append.mpr (Or.inr ((mem_partAdds _ _).mpr
        ⟨b, a, (isPartOf_mem_stage1 g b a).mpr hio, rfl⟩))

/-- Membership characterization of one _forward_chain_dcat pass. -/
theorem mem_forward_chain (g : RdfGraph) (t : Triple) :
    t ∈ _forward_chain_dcat g ↔
      t ∈ g
      ∨ (∃ s, Triple.mk s rdfType dcatDataset ∈ g
              ∧ t = Triple.mk s rdfType dcatResource)
      ∨ (∃ a b, Triple.mk a dctIsPartOf b ∈ g ∧ t = Triple.mk b dctHasPart a)
      ∨ (∃ a b, Triple.mk a dctHasPart b ∈ g ∧ t = Triple.mk b dctIsPartOf a) := by
  show t ∈ ((g ++ typeAdds g) ++ partAdds (g ++ typeAdds g))
            ++ invAdds ((g ++ typeAdds g) ++ partAdds (g ++ typeAdds g)) ↔ _
  constructor
  · intro h
    rcases List.mem_append.mp h with h2 | hinv
    · rcases List.mem_append.mp h2 with h1 | hpart
      · rcases List.mem_append.mp h1 with hg | hty
        · exact Or.inl hg
        · rcases (mem_typeAdds g t).mp hty with ⟨s, hs, rfl⟩
          exact Or.inr (Or.inl ⟨s, hs, rfl⟩)
      · rcases (mem_partAdds _ t).mp hpart with ⟨a, b, hab, rfl⟩
        rw [isPartOf_mem_stage1] at hab
        exact Or.inr (Or.inr (Or.inl ⟨a, b, hab, rfl⟩))
    · rcases (mem_invAdds _ t).mp hinv with ⟨a, b, hab, rfl⟩
      rcases (hasPart_mem_stage2 g a b).mp hab with h1 | h2
      · exact Or.inr (Or.inr (Or.inr ⟨a, b, h1, rfl⟩))
      · exact Or.inl h2
  · intro h
    rcases h with hg | ⟨s, hs, rfl⟩ | ⟨a, b, hab, rfl⟩ | ⟨a, b, hab, rfl⟩
    · exact List.mem_append.mpr (Or.inl (List.mem_append.mpr
        (Or.inl (List.mem_append.mpr (Or.inl hg)))))
    · exact List.mem_append.mpr (Or.inl (List.mem_append.mpr
        (Or.inl (List.mem_append.mpr (Or.inr ((mem_typeAdds g _).mpr ⟨s, hs, rfl⟩))))))
    · exact List.mem_append.mpr (Or.inl (List.mem_append.mpr
        (Or.inr ((mem_partAdds _ _).mpr
          ⟨a, b, (isPartOf_mem_stage1 g a b).mpr hab, rfl⟩))))
    · exact List.mem_append.mpr (Or.inr ((mem_invAdds _ _).mpr
        ⟨a, b, (hasPart_mem_stage2 g a b).mpr (Or.inl hab), rfl⟩))

/-- C6: _forward_chain_dcat only adds triples (its output contains its input;
every Dataset-typed subject gains type dcat:Resource, every isPartOf gains the
inverse hasPart and vice versa), and it is idempotent: a second run yields
exactly the members of the first. -/
theorem forward_chain_monotone_idempotent :
    ∀ (g : RdfGraph) (t : Triple),
    (t ∈ g → t ∈ _forward_chain_dcat g)
    ∧ (∀ s, Triple.mk s rdfType dcatDataset ∈ g →
         Triple.mk s rdfType dcatResource ∈ _forward_chain_dcat g)
    ∧ (∀ a b, Triple.mk a dctIsPartOf b ∈ g →
         Triple.mk b dctHasPart a ∈ _forward_chain_dcat g)
    ∧ (∀ a b, Triple.mk a dctHasPart b ∈ g →
         Triple.mk b dctIsPartOf a ∈ _forward_chain_dcat g)
    ∧ (t ∈ _forward_chain_dcat (_forward_chain_dcat g)
         ↔ t ∈ _forward_chain_dcat g) := by
  intro g t
  refine ⟨?_, ?_, ?_, ?_, ?_⟩
  · intro h
    exact (mem_forward_chain g t).mpr (Or.inl h)
  · intro s h
    exact (mem_forward_chain g _).mpr (Or.inr (Or.inl ⟨s, h, rfl⟩))
  · intro a b h
    exact (mem_forward_chain g _).mpr (Or.inr (Or.inr (Or.inl ⟨a, b, h, rfl⟩)))
  · intro a b h
    exact (mem_forward_chain g _).mpr (Or.inr (Or.inr (Or.inr ⟨a, b, h, rfl⟩)))
  · constructor
    · intro h
      rcases (mem_forward_chain _ t).mp h with
        hC | ⟨s, hs, rfl⟩ | ⟨a, b, hab, rfl⟩ | ⟨a, b, hab, rfl⟩
      · exact hC
      · rcases (mem_forward_chain g _).mp hs with
          hg | ⟨s2, _, heq⟩ | ⟨a2, b2, _, heq⟩ | ⟨a2, b2, _, heq⟩
        · exact (mem_forward_chain g _).mpr (Or.inr (Or.inl ⟨s, hg, rfl⟩))
        · rw [Triple.mk.injEq] at heq
          exact absurd heq.2.2 (by decide)
        · rw [Triple.mk.injEq] at heq
          exact absurd heq.2.1 (by decide)
        · rw [Triple.mk.injEq] at heq
          exact absurd heq.2.1 (by decide)
      · rcases (mem_forward_chain g _).mp hab with
          hg | ⟨s2, _, heq⟩ | ⟨a2, b2, _, heq⟩ | ⟨a2, b2, hg2, heq⟩
        · exact (mem_forward_chain g _).mpr
            (Or.inr (Or.inr (Or.inl ⟨a, b, hg, rfl⟩)))
        · rw [Triple.mk.injEq] at heq
          exact absurd heq.2.1 (by decide)
        · rw [Triple.mk.injEq] at heq
          exact absurd heq.2.1 (by decide)
        · rw [Triple.mk.injEq] at heq
          obtain ⟨h1, _, h3⟩ := heq
          subst h1
          subst h3
          exact (mem_forward_chain g _).mpr (Or.inl hg2)
      · rcases (mem_forward_chain g _).mp hab with
          hg | ⟨s2, _, heq⟩ | ⟨a2, b2, hg2, heq⟩ | ⟨a2, b2, _, heq⟩
        · exact (mem_forward_chain g _).mpr
            (Or.inr (Or.inr (Or.inr ⟨a, b, hg, rfl⟩)))
        · rw [Triple.mk.injEq] at heq
          exact absurd heq.2.1 (by decide)
        · rw [Triple.mk.injEq] at heq
          obtain ⟨h1, _, h3⟩ := heq
          subst h1
          subst h3
          exact (mem_forward_chain g _).mpr (Or.inl hg2)
        · rw [Triple.mk.injEq] at heq
          exact absurd heq.2.1 (by decide)
    · intro h
      exact (mem_forward_chain _ t).mpr (Or.inl h)

/-- Witness for forward_chain_monotone_idempotent on a three-triple graph,
discharging each of its hypotheses at concrete inputs. -/
theorem forward_chain_monotone_idempotent_witness :
    Triple.mk (Node.uri "a") dctIsPartOf (Node.uri "b") ∈ gPartOnly
    ∧ Triple.mk (Node.uri "a") dctIsPartOf (Node.uri "b")
        ∈ _forward_chain_dcat gPartOnly
    ∧ Triple.mk (Node.uri "d") rdfType dcatResource
        ∈ _forward_chain_dcat gPartOnly
    ∧ Triple.mk (Node.uri "b") dctHasPart (Node.uri "a")
        ∈ _forward_chain_dcat gPartOnly
    ∧ Triple.mk (Node.uri "e") dctIsPartOf (Node.uri "c")
        ∈ _forward_chain_dcat gPartOnly :=
  ⟨by decide,
   (forward_chain_monotone_idempotent gPartOnly
      (Triple.mk (Node.uri "a") dctIsPartOf (Node.uri "b"))).1 (by decide),
   (forward_chain_monotone_idempotent gPartOnly
      (Triple.mk (Node.uri "a") dctIsPartOf (Node.uri "b"))).2.1
     (Node.uri "d") (by decide),
   (forward_chain_monotone_idempotent gPartOnly
      (Triple.mk (Node.uri "a") dctIsPartOf (Node.uri "b"))).2.2.1
     (Node.uri "a") (Node.uri "b") (by decide),
   (forward_chain_monotone_idempotent gPartOnly
      (Triple.mk (Node.uri "a") dctIsPartOf (Node.uri "b"))).2.2.2.1
     (Node.uri "c") (Node.uri "e") (by decide)⟩

/-- C2: both normalisers read each raw dimension value with subject None, that
is, from the first observation carrying the raw measure anywhere in the graph,
not from the observations of the resource being normalised.  On a graph with
two scored resources, r1 at the maxima and r2 at zero, the normalised group
that back-references r2 carries the value 1.00 taken from r1, and the value
0.00 that would normalise the raw values of r2 appears nowhere. -/
theorem normaliser_reads_global_first_value :
    (normalise_fair_scores gFairScoresPair = some fairNormOut
     ∧ Triple.mk (Node.uri "r2") scoresHasScore (Node.bnode "og2") ∈ gFairScoresPair
     ∧ Triple.mk (Node.bnode "o2f") scoresFairFScore (Node.natLit 0) ∈ gFairScoresPair
     ∧ Triple.mk (Node.bnode "fair_norm_og_1") scoresRefResource (Node.uri "r2")
         ∈ fairNormOut
     ∧ Triple.mk (Node.bnode "fair_norm_og_1") qbObservationProp
         (Node.bnode "fair_norm_obs_f_1") ∈ fairNormOut
     ∧ Triple.mk (Node.bnode "fair_norm_obs_f_1") scoresFairFScoreNormalised
         (Node.lit (fmtDiv 17 17) none) ∈ fairNormOut
     ∧ fmtDiv 17 17 = "1.00" ∧ fmtDiv 0 17 = "0.00"
     ∧ fairNormOut.countP
         (fun t => decide (t.p = scoresFairFScoreNormalised
                           ∧ t.o = Node.lit "0.00" none)) = 0)
    ∧ (normalise_care_scores gCareScoresPair = some careNormOut
     ∧ Triple.mk (Node.bnode "o2e") scoresCareEScore (Node.natLit 0) ∈ gCareScoresPair
     ∧ Triple.mk (Node.bnode "care_norm_og_1") scoresRefResource (Node.uri "r2")
         ∈ careNormOut
     ∧ Triple.mk (Node.bnode "care_norm_obs_e_1") scoresCareEScoreNormalised
         (Node.lit (fmtDiv 3 3) none) ∈ careNormOut
     ∧ fmtDiv 3 3 = "1.00" ∧ fmtDiv 0 3 = "0.00"
     ∧ careNormOut.countP
         (fun t => decide (t.p = scoresCareEScoreNormalised
                           ∧ t.o = Node.lit "0.00" none)) = 0) := by
  exact ⟨⟨by decide, by decide, by decide, by decide, by decide, by decide,
    by decide, by decide, by decide⟩,
   by decide, by decide, by decide, by decide, by decide, by decide, by decide⟩
